import Mathlib

/-!
Shallow embedding of the sonar-render repository (src/server.py and
src/pi_sender.py) and proofs about its documented behaviour.

Relay side (server.py): `ConnectionManager` keeps two Python lists,
`viewers` and `publishers`, guarded by one `asyncio.Lock`.  Connections are
modelled as natural numbers.  An `asyncio.Lock` is not reentrant: a task
that awaits `lock.acquire()` while it itself already holds the lock
suspends forever (nothing else can release the lock), which we model by
`lockAcquire` returning `none` and the enclosing operation ending in a
`blocked` result that records the sends performed and the registry content
at the moment of blocking.

Publisher side (pi_sender.py): real numbers from the Python code (pulse
durations, the propagation speed, sleep intervals) are modelled as exact
rationals; Python's `round(x, 3)` is modelled as exact round-half-even at
three decimal places.
-/

namespace SonarRender

/-- Registry state of `ConnectionManager`: the two Python lists
`self.viewers` and `self.publishers` (server.py lines 14-15). -/
structure ManagerState where
  viewers : List Nat
  publishers : List Nat
deriving DecidableEq

/-- The single `asyncio.Lock` of the manager (server.py line 16). -/
structure RelayLock where
  held : Bool
deriving DecidableEq

/-- `await lock.acquire()`: succeeds only when the lock is free.  Acquiring
a lock already held by the running task never completes (asyncio locks are
not reentrant and nothing else can release it), modelled as `none`. -/
def lockAcquire (l : RelayLock) : Option RelayLock :=
  if l.held then none else some ⟨true⟩

/-- `ConnectionManager.connect_viewer` (server.py lines 18-21): accept,
then append to `self.viewers` under the lock, with no membership check. -/
def connect_viewer (s : ManagerState) (ws : Nat) : ManagerState :=
  { s with viewers := s.viewers ++ [ws] }

/-- `ConnectionManager.connect_publisher` (server.py lines 23-26). -/
def connect_publisher (s : ManagerState) (ws : Nat) : ManagerState :=
  { s with publishers := s.publishers ++ [ws] }

/-- The registry mutation performed by `ConnectionManager.disconnect`
(server.py lines 28-31): `if ws in xs: xs.remove(ws)` removes the first
occurrence of `ws` and leaves the list unchanged when `ws` is absent,
which is exactly `List.erase`. -/
def disconnect (s : ManagerState) (ws : Nat) : ManagerState :=
  ⟨s.viewers.erase ws, s.publishers.erase ws⟩

/-- Outcome of one `broadcast_to_viewers` call: either the loop finished
(`done`, with the final registry and the list of performed sends
`(viewer, message)` in order), or the task blocked forever awaiting the
lock (`blocked`, with the sends performed and the registry content at the
moment of blocking). -/
inductive BResult where
  | done (final : ManagerState) (sends : List (Nat × String))
  | blocked (state : ManagerState) (sends : List (Nat × String))
deriving DecidableEq

/-- The sends performed during a broadcast, whether or not it completed. -/
def BResult.sends : BResult → List (Nat × String)
  | .done _ l => l
  | .blocked _ l => l

/-- Whether the broadcast blocked forever instead of completing. -/
def BResult.isBlocked : BResult → Bool
  | .done _ _ => false
  | .blocked _ _ => true

/-- The loop body of `broadcast_to_viewers` (server.py lines 35-39),
iterating over the snapshot `list(self.viewers)` while the broadcast task
holds `lock`.  `sendOk v` tells whether `v.send_text(message)` succeeds;
on an exception the code runs `await self.disconnect(v)`, which first
awaits the same lock: if the lock is held (it always is here) the task
blocks forever, otherwise the registry mutation would run and the lock be
released again. -/
def broadcastGo (sendOk : Nat → Bool) (msg : String) (lock : RelayLock) :
    ManagerState → List Nat → List (Nat × String) → BResult
  | s, [], acc => .done s acc.reverse
  | s, v :: rest, acc =>
    if sendOk v then
      broadcastGo sendOk msg lock s rest ((v, msg) :: acc)
    else
      match lockAcquire lock with
      | none => .blocked s acc.reverse
      | some _ => broadcastGo sendOk msg lock (disconnect s v) rest acc

/-- `ConnectionManager.broadcast_to_viewers` (server.py lines 33-39):
enter `async with self.lock` (free at entry, so the task now holds it),
snapshot the viewer list, and run the send loop holding the lock. -/
def broadcast_to_viewers (sendOk : Nat → Bool) (msg : String)
    (s : ManagerState) : BResult :=
  broadcastGo sendOk msg ⟨true⟩ s s.viewers []

/-- One inbound message in `websocket_publisher` (server.py lines 51-53):
`data = await ws.receive_text()` followed by
`await manager.broadcast_to_viewers(data)` — the received text is passed
to the broadcast unmodified. -/
def websocket_publisher_message (sendOk : Nat → Bool) (s : ManagerState)
    (data : String) : BResult :=
  broadcast_to_viewers sendOk data s

/- ---------- Publisher client: pi_sender.py ---------- -/

/-- Python `round` at integer precision: round half to even. -/
def pythonRound (q : ℚ) : ℤ :=
  let f : ℤ := ⌊q⌋
  let r : ℚ := q - (f : ℚ)
  if r < 1 / 2 then f
  else if 1 / 2 < r then f + 1
  else if f % 2 = 0 then f else f + 1

/-- Python `round(x, 3)`: round half to even at three decimal places. -/
def round3 (q : ℚ) : ℚ :=
  (pythonRound (q * 1000) : ℚ) / 1000

/-- The distance computed by `read_distance` (pi_sender.py lines 102-104)
from the measured pulse duration and the configured propagation speed:
`distance_m = (pulse * SOUND_SPEED) / 2.0`. -/
def read_distance (pulse speed : ℚ) : ℚ :=
  (pulse * speed) / 2

/-- The JSON payload built once per cycle (pi_sender.py lines 135-140). -/
structure Reading where
  distance_m : Option ℚ
  angle_deg : ℚ
  timestamp : String
  quality : String
deriving DecidableEq

/-- Payload construction in `main` (pi_sender.py lines 135-140), from the
result `d` of `read_distance()` (`none` models Python `None`):
`"distance_m": None if d is None else round(d, 3)` and
`"quality": "ok" if d is not None else "no_echo"`. -/
def mkPayload (d : Option ℚ) (t : String) : Reading :=
  { distance_m := match d with | none => none | some x => some (round3 x)
    angle_deg := 0
    timestamp := t
    quality := match d with | none => "no_echo" | some _ => "ok" }

/-- Outcome of `requests.post` as seen by `publish_payload`: either a
response with a status code and body, or a raised
`requests.RequestException` (connection errors and timeouts). -/
inductive HttpResult where
  | response (status : Nat) (body : String)
  | requestException
deriving DecidableEq

/-- `publish_payload` (pi_sender.py lines 107-122): `True` when
`200 <= r.status_code < 300`, `False` on any other status, and `False`
when `requests.post` raises a `RequestException` (the `except` clause);
no exception escapes the function in the model's failure modes. -/
def publish_payload (r : HttpResult) : Bool :=
  match r with
  | .response status _ => if 200 ≤ status ∧ status < 300 then true else false
  | .requestException => false

/-- Effect of one loop cycle after the publish attempt: the sleeps
performed (in order) and the value of `consecutive_failures` at the end of
the cycle. -/
structure CycleResult where
  sleeps : List ℚ
  counter : Nat
deriving DecidableEq

/-- The tail of one iteration of `main`'s while loop (pi_sender.py lines
143-162), given whether `publish_payload` returned `True` and the value of
`consecutive_failures` before this cycle: on success the counter is reset
to 0, on failure it is incremented; then the loop sleeps
`min(5, consecutive_failures)` if the counter is `>= 3` and
`SAMPLE_INTERVAL` otherwise; then, if the counter is
`>= MAX_CONSECUTIVE_FAILURES`, it additionally sleeps 30 seconds and
resets the counter to 0. -/
def loop_cycle (ok : Bool) (counter : Nat) (sample_interval : ℚ)
    (max_fail : Nat) : CycleResult :=
  let c1 := if ok then 0 else counter + 1
  let s1 : ℚ := if 3 ≤ c1 then ((min 5 c1 : Nat) : ℚ) else sample_interval
  if max_fail ≤ c1 then ⟨[s1, 30], 0⟩ else ⟨[s1], c1⟩

/- ---------- Theorems: relay (server.py) ---------- -/

/-- If some viewer in the iterated snapshot has a failing send, the
broadcast loop (entered with the lock held) blocks forever awaiting the
lock inside `disconnect`. -/
theorem broadcastGo_blocked_of_mem (sendOk : Nat → Bool) (msg : String)
    (s : ManagerState) (l : List Nat) (acc : List (Nat × String)) (v : Nat)
    (hv : v ∈ l) (hf : sendOk v = false) :
    (broadcastGo sendOk msg ⟨true⟩ s l acc).isBlocked = true := by
  induction l generalizing acc with
  | nil => cases hv
  | cons a t ih =>
    rcases List.mem_cons.mp hv with rfl | hvt
    · simp [broadcastGo, hf, lockAcquire, BResult.isBlocked]
    · by_cases ha : sendOk a = true
      · simpa [broadcastGo, ha] using ih ((a, msg) :: acc) hvt
      · simp [broadcastGo, ha, lockAcquire, BResult.isBlocked]

/-- C1: the claim fails on the code.  With two registered viewers and the
send to the first raising, `broadcast_to_viewers` blocks forever on
`self.lock` inside `self.disconnect` (asyncio locks are not reentrant):
no send is performed for the remaining viewer `1`, and the failing viewer
`0` is still in the registry at the moment of blocking. -/
theorem broadcast_failure_blocks_rest :
    broadcast_to_viewers (fun v => v != 0) "m" ⟨[0, 1], []⟩
      = .blocked ⟨[0, 1], []⟩ [] := by decide

/-- C2: the claim fails on the code.  Whenever any registered viewer's
send fails, the broadcast never completes: it deadlocks awaiting the
non-reentrant registry lock that it itself holds. -/
theorem broadcast_deadlocks_on_send_failure (s : ManagerState)
    (sendOk : Nat → Bool) (msg : String) (v : Nat)
    (hv : v ∈ s.viewers) (hf : sendOk v = false) :
    (broadcast_to_viewers sendOk msg s).isBlocked = true :=
  broadcastGo_blocked_of_mem sendOk msg s s.viewers [] v hv hf

/-- Witness for the C2 theorem at a concrete registry. -/
theorem broadcast_deadlocks_on_send_failure_witness :
    (7 ∈ (ManagerState.mk [7] []).viewers ∧ (fun _ : Nat => false) 7 = false) ∧
    (broadcast_to_viewers (fun _ => false) "x" ⟨[7], []⟩).isBlocked = true :=
  ⟨⟨by decide, rfl⟩,
   broadcast_deadlocks_on_send_failure ⟨[7], []⟩ (fun _ => false) "x" 7
     (by decide) rfl⟩

/-- When every send in the snapshot succeeds, the broadcast loop completes
with one send per snapshot entry, in order, and the registry unchanged. -/
theorem broadcastGo_all_ok (sendOk : Nat → Bool) (msg : String)
    (lock : RelayLock) (s : ManagerState) (l : List Nat)
    (acc : List (Nat × String)) (h : ∀ v ∈ l, sendOk v = true) :
    broadcastGo sendOk msg lock s l acc
      = .done s (acc.reverse ++ l.map (fun v => (v, msg))) := by
  induction l generalizing acc with
  | nil => simp [broadcastGo]
  | cons a t ih =>
    have ha : sendOk a = true := h a (List.mem_cons_self a t)
    rw [broadcastGo, if_pos ha, ih _ (fun v hv => h v (List.mem_cons_of_mem a hv))]
    simp

/-- C8: when every send succeeds, one inbound publisher message produces
exactly one send per viewer in the snapshot taken at broadcast start, each
carrying the inbound text unmodified, and no send goes to any connection
outside the snapshot (in particular none to a viewer registered after it). -/
theorem broadcast_delivers_to_snapshot (s : ManagerState)
    (sendOk : Nat → Bool) (data : String)
    (h : ∀ v ∈ s.viewers, sendOk v = true) :
    websocket_publisher_message sendOk s data
        = .done s (s.viewers.map (fun v => (v, data)))
      ∧ (websocket_publisher_message sendOk s data).sends.length
          = s.viewers.length
      ∧ ∀ w, w ∉ s.viewers → ∀ m,
          (w, m) ∉ (websocket_publisher_message sendOk s data).sends := by
  have he : websocket_publisher_message sendOk s data
      = .done s (s.viewers.map (fun v => (v, data))) := by
    simpa [websocket_publisher_message, broadcast_to_viewers]
      using broadcastGo_all_ok sendOk data ⟨true⟩ s s.viewers [] h
  refine ⟨he, ?_, ?_⟩
  · rw [he]; simp [BResult.sends]
  · intro w hw m hm
    rw [he] at hm
    simp only [BResult.sends, List.mem_map, Prod.mk.injEq] at hm
    obtain ⟨a, haa, haw, -⟩ := hm
    exact hw (haw ▸ haa)

/-- Witness for the C8 theorem with two viewers. -/
theorem broadcast_delivers_to_snapshot_witness :
    (∀ v ∈ (ManagerState.mk [1, 2] []).viewers, (fun _ : Nat => true) v = true) ∧
    (websocket_publisher_message (fun _ => true) ⟨[1, 2], []⟩ "r"
        = .done ⟨[1, 2], []⟩
            ((ManagerState.mk [1, 2] []).viewers.map (fun v => (v, "r")))
      ∧ (websocket_publisher_message (fun _ => true) ⟨[1, 2], []⟩ "r").sends.length
          = (ManagerState.mk [1, 2] []).viewers.length
      ∧ ∀ w, w ∉ (ManagerState.mk [1, 2] []).viewers → ∀ m,
          (w, m) ∉ (websocket_publisher_message (fun _ => true) ⟨[1, 2], []⟩ "r").sends) :=
  ⟨fun _ _ => rfl,
   broadcast_delivers_to_snapshot ⟨[1, 2], []⟩ (fun _ => true) "r" (fun _ _ => rfl)⟩

/-- C9 counterexample: on a registry holding the same connection twice,
a second `disconnect` changes the registry again, so `disconnect` as
implemented (`list.remove` removes one occurrence) is not idempotent. -/
theorem disconnect_not_idempotent_on_duplicate :
    disconnect (disconnect ⟨[3, 3], []⟩ 3) 3 ≠ disconnect ⟨[3, 3], []⟩ 3 := by
  decide

/-- C9 amended: `disconnect` removes the first occurrence of the
connection from each registry list; provided the connection occurs at most
once in each list (as holds when every connection registers once), the
connection is absent afterwards and a second `disconnect` is a no-op. -/
theorem disconnect_idempotent (s : ManagerState) (ws : Nat)
    (h1 : s.viewers.count ws ≤ 1) (h2 : s.publishers.count ws ≤ 1) :
    disconnect (disconnect s ws) ws = disconnect s ws
      ∧ ws ∉ (disconnect s ws).viewers
      ∧ ws ∉ (disconnect s ws).publishers := by
  have key : ∀ l : List Nat, l.count ws ≤ 1 → ws ∉ l.erase ws := by
    intro l hl hmem
    have h0 : (l.erase ws).count ws = l.count ws - 1 :=
      List.count_erase_self ws l
    have hpos : 0 < (l.erase ws).count ws := List.count_pos_iff.mpr hmem
    omega
  have hv := key s.viewers h1
  have hp := key s.publishers h2
  exact ⟨by simp [disconnect, List.erase_of_not_mem hv, List.erase_of_not_mem hp],
    hv, hp⟩

/-- Witness for the amended C9 theorem. -/
theorem disconnect_idempotent_witness :
    ((ManagerState.mk [4] [9]).viewers.count 4 ≤ 1
        ∧ (ManagerState.mk [4] [9]).publishers.count 4 ≤ 1) ∧
    (disconnect (disconnect ⟨[4], [9]⟩ 4) 4 = disconnect ⟨[4], [9]⟩ 4
      ∧ 4 ∉ (disconnect ⟨[4], [9]⟩ 4).viewers
      ∧ 4 ∉ (disconnect ⟨[4], [9]⟩ 4).publishers) :=
  ⟨by decide, disconnect_idempotent ⟨[4], [9]⟩ 4 (by decide) (by decide)⟩

/-- C10: registering the same connection twice stores it twice (no
membership check), a broadcast then sends the message twice to that
connection, and a single `disconnect` removes only one occurrence, leaving
the connection still registered. -/
theorem duplicate_registration_double_send :
    (connect_viewer (connect_viewer ⟨[], []⟩ 5) 5).viewers = [5, 5]
      ∧ (broadcast_to_viewers (fun _ => true) "m"
          (connect_viewer (connect_viewer ⟨[], []⟩ 5) 5)).sends
          = [(5, "m"), (5, "m")]
      ∧ (disconnect (connect_viewer (connect_viewer ⟨[], []⟩ 5) 5) 5).viewers = [5]
      ∧ 5 ∈ (disconnect (connect_viewer (connect_viewer ⟨[], []⟩ 5) 5) 5).viewers := by
  refine ⟨rfl, rfl, rfl, ?_⟩
  decide

/- ---------- Theorems: publisher client (pi_sender.py) ---------- -/

/-- C5: in every payload built by the main loop, `distance_m` is `null`
exactly when `quality` is `no_echo`, and present exactly when `quality`
is `ok`. -/
theorem reading_null_iff_no_echo (d : Option ℚ) (t : String) :
    ((mkPayload d t).distance_m = none ↔ (mkPayload d t).quality = "no_echo")
      ∧ ((mkPayload d t).distance_m ≠ none ↔ (mkPayload d t).quality = "ok") := by
  cases d <;> simp [mkPayload]

/-- C6: for a measured pulse duration `p` and propagation speed `s`, the
payload's `distance_m` is `(p * s) / 2` rounded to three decimal places,
and its quality tag is `ok`. -/
theorem acquire_distance_rounded (p s : ℚ) (t : String) :
    (mkPayload (some (read_distance p s)) t).distance_m
        = some (round3 ((p * s) / 2))
      ∧ (mkPayload (some (read_distance p s)) t).quality = "ok" :=
  ⟨rfl, rfl⟩

/-- C7: `publish_payload` returns `True` exactly when the transport
returned a response with a 2xx status; every raised transport error or
timeout (`requests.RequestException`) and every non-2xx status yields
`False`, with no exception escaping. -/
theorem publish_payload_true_iff_2xx (r : HttpResult) :
    publish_payload r = true
      ↔ ∃ status body, r = .response status body ∧ 200 ≤ status ∧ status < 300 := by
  cases r with
  | response st b =>
    by_cases h : 200 ≤ st ∧ st < 300
    · simp [publish_payload, h]
    · simp [publish_payload, h]
  | requestException => simp [publish_payload]

/-- C3 counterexample: with the counter at 9 and the next publish failing
(counter reaches the default maximum 10), the cycle sleeps
`min(5, 10) = 5` seconds and then 30 more seconds — not 30 seconds
alone. -/
theorem max_failures_extra_backoff_sleep :
    loop_cycle false 9 (1 / 2) 10 = ⟨[5, 30], 0⟩
      ∧ loop_cycle false 9 (1 / 2) 10 ≠ ⟨[30], 0⟩ := by
  constructor <;> decide

/-- C3 amended: when a failed publish brings the counter to at least the
configured maximum (and at least 3), the cycle sleeps the
`min(5, counter)` backoff and then an additional 30 seconds, and resets
the counter to 0 for the next cycle. -/
theorem max_failures_cycle (counter max_fail : Nat) (si : ℚ)
    (h3 : 3 ≤ counter + 1) (hmax : max_fail ≤ counter + 1) :
    loop_cycle false counter si max_fail
      = ⟨[((min 5 (counter + 1) : Nat) : ℚ), 30], 0⟩ := by
  simp [loop_cycle, h3, hmax]

/-- Witness for the amended C3 theorem at the default maximum of 10. -/
theorem max_failures_cycle_witness :
    (3 ≤ 9 + 1 ∧ 10 ≤ 9 + 1) ∧
    loop_cycle false 9 (1 / 2) 10 = ⟨[((min 5 (9 + 1) : Nat) : ℚ), 30], 0⟩ :=
  ⟨by decide, max_failures_cycle 9 10 (1 / 2) (by decide) (by decide)⟩

/-- C4: on a successful publish the counter resets to 0 and the cycle
sleeps the base sample interval; on a failed publish that brings the
counter to at least 3 but below the configured maximum, the cycle's only
sleep is `min(5, counter)` seconds and the counter keeps its incremented
value. -/
theorem cycle_policy (counter max_fail : Nat) (si : ℚ) (hmax : 0 < max_fail) :
    loop_cycle true counter si max_fail = ⟨[si], 0⟩
      ∧ (3 ≤ counter + 1 → counter + 1 < max_fail →
          loop_cycle false counter si max_fail
            = ⟨[((min 5 (counter + 1) : Nat) : ℚ)], counter + 1⟩) := by
  constructor
  · have h1 : ¬ (3 : Nat) ≤ 0 := by omega
    have h2 : ¬ max_fail ≤ 0 := by omega
    simp [loop_cycle, h1, h2]
  · intro h3 hlt
    have h2 : ¬ max_fail ≤ counter + 1 := by omega
    simp [loop_cycle, h3, h2]

/-- Witness for the C4 theorem with counter 2 and the default maximum. -/
theorem cycle_policy_witness :
    (0 < 10) ∧
    (loop_cycle true 2 (1 / 2) 10 = ⟨[1 / 2], 0⟩
      ∧ (3 ≤ 2 + 1 → 2 + 1 < 10 →
          loop_cycle false 2 (1 / 2) 10
            = ⟨[((min 5 (2 + 1) : Nat) : ℚ)], 2 + 1⟩)) :=
  ⟨by decide, cycle_policy 2 10 (1 / 2) (by decide)⟩

end SonarRender
